import Mathlib

/-!
# Verification of the Databricks Explorer MCP server (`src/server.py`)

A shallow embedding of the server's core logic over `List Char` strings:

* `_is_sql`              — the SQL classifier (`_is_sql`, server.py:102-105)
* `search`               — the search dispatcher (`search`, server.py:110-165)
* `_run_sql` / `pollLoop`— the statement execution engine (`_run_sql`, server.py:52-79)
* `fetch` / `fetchMeta`  — the fetch dispatcher (`fetch`, server.py:170-213)

Python strings are `List Char`; the remote Unity-Catalog metadata API and the
SQL statement service are modelled as explicit environments whose calls return
`Except PyExc …` (an `Except.error` is a Python exception propagating out of
the corresponding `requests` call or raised by `_run_sql` itself).  Machinery
that the core never branches on (HTTP headers, transport wiring, logging) is
outside the environment boundary, exactly as in the spec's component split.
-/

set_option autoImplicit false

namespace DBX

/-- Characters of a string literal: the Python string as a `List Char`. -/
def chars (s : String) : List Char := s.data

/-- Python exceptions that the server's code paths can raise.  `str` below is
Python's `str(exc)` for each of them (`str(KeyError(k))` is `repr(k)`). -/
inductive PyExc where
  | runtimeError (msg : List Char)
  | timeoutError (msg : List Char)
  | keyError (key : List Char)
  | requestError (msg : List Char)
  deriving DecidableEq

/-- Python `str(exc)` for the exceptions in `PyExc`. -/
def PyExc.str : PyExc → List Char
  | .runtimeError m => m
  | .timeoutError m => m
  | .keyError k => chars "'" ++ k ++ chars "'"
  | .requestError m => m

/-- A Unity-Catalog object record as the metadata API returns it: a `name`
(required) and an optional `comment` (`obj.get("comment", "")`). -/
structure UCObj where
  name : List Char
  comment : Option (List Char)
  deriving DecidableEq

/-- The `manifest` field of a statement status (`{"total_row_count": …}`);
`total_row_count` is `none` when the key is absent. -/
structure Manifest where
  total_row_count : Option Nat
  deriving DecidableEq

/-- One statement-status response
(`{status: {state, error?: {message?}}, manifest?, result?}`).
`errorMessage` is `status["status"]["error"]["message"]` when both keys are
present; `hasResult` is the truthiness of `status.get("result")`; `reprStr`
is Python's `str(status)`, used as the fallback failure message. -/
structure SqlStatus where
  state : List Char
  errorMessage : Option (List Char)
  hasResult : Bool
  manifest : Option Manifest
  reprStr : List Char
  deriving DecidableEq

/-- Metadata attached to a `SearchResult`: `{"sql": …}` for the SQL stub,
or the full remote object record. -/
inductive Metadata where
  | sqlMeta (sql : List Char)
  | objMeta (o : UCObj)
  deriving DecidableEq

/-- One entry of the list returned by `search`: a regular result dict
`{id, title, text, metadata}` or the error entry `{"error": msg}`. -/
inductive SearchResult where
  | item (id title text : List Char) (metadata : Metadata)
  | error (msg : List Char)
  deriving DecidableEq

/-- Metadata attached to a successful `fetch` result: the full execution
status for the SQL path, or the remote object record for metadata lookups. -/
inductive FetchMeta where
  | statusMeta (s : SqlStatus)
  | objMeta (o : UCObj)
  deriving DecidableEq

/-- The dict returned by `fetch`: `{id, title, text, metadata}` or
`{"error": msg}`. -/
inductive FetchResult where
  | ok (id title text : List Char) (metadata : FetchMeta)
  | err (msg : List Char)
  deriving DecidableEq

/-- The Unity-Catalog metadata API as `search`/`fetch` consume it:
`list_catalogs().get("catalogs", [])`, `list_schemas(cat).get("schemas", [])`,
`list_tables(cat, sch).get("tables", [])`; an `Except.error` is a `requests`
exception escaping the call. -/
structure MetaEnv where
  catalogs : Except PyExc (List UCObj)
  schemas : List Char → Except PyExc (List UCObj)
  tables : List Char → List Char → Except PyExc (List UCObj)

/-- The SQL statement service as `_run_sql` consumes it: `submit sql` is the
submission POST (server.py:61-68), `polls sql i` is the `i`-th status GET for
that statement (server.py:71). -/
structure SqlEnv where
  submit : List Char → Except PyExc Unit
  polls : List Char → Nat → Except PyExc SqlStatus

/-- Everything remote that one `fetch` call can touch. -/
structure Env where
  meta : MetaEnv
  sql : SqlEnv

/-- A metadata service that never fails, for stating properties of the
no-exception paths. -/
structure PureMeta where
  catalogs : List UCObj
  schemas : List Char → List UCObj
  tables : List Char → List Char → List UCObj

/-- View a `PureMeta` as a `MetaEnv` none of whose calls raise. -/
def PureMeta.toEnv (m : PureMeta) : MetaEnv :=
  ⟨.ok m.catalogs, fun c => .ok (m.schemas c), fun c s => .ok (m.tables c s)⟩

/-! ## Python string primitives -/

/-- Python `str.lower()` (ASCII-faithful). -/
def pyLower (l : List Char) : List Char := l.map Char.toLower

/-- Python `str.lstrip()`. -/
def pyLstrip (l : List Char) : List Char := l.dropWhile Char.isWhitespace

/-- Python `str.strip()`. -/
def pyStrip (l : List Char) : List Char :=
  ((l.dropWhile Char.isWhitespace).reverse.dropWhile Char.isWhitespace).reverse

/-- Python `needle in hay`: contiguous-substring test. -/
def pyIn (needle : List Char) : List Char → Bool
  | [] => needle.isEmpty
  | c :: rest => needle.isPrefixOf (c :: rest) || pyIn needle rest

/-- Python `s.split("::", 1)` when it actually splits: the pieces before and
after the first occurrence of `"::"`, or `none` when `"::"` does not occur
(in which case the two-variable unpacking in `fetch` raises `ValueError`). -/
def splitOnColons : List Char → Option (List Char × List Char)
  | [] => none
  | [_] => none
  | a :: b :: rest =>
    if a = ':' ∧ b = ':' then some ([], rest)
    else (splitOnColons (b :: rest)).map fun p => (a :: p.1, p.2)

/-- Python `s.split(c, 1)` when it actually splits: pieces before and after
the first occurrence of the character `c`, else `none`. -/
def splitFirstOn (c : Char) : List Char → Option (List Char × List Char)
  | [] => none
  | a :: rest =>
    if a = c then some ([], rest)
    else (splitFirstOn c rest).map fun p => (a :: p.1, p.2)

/-- The possible shapes of Python `s.split(".", 2)`: one, two or three parts. -/
inductive Split3 where
  | one (a : List Char)
  | two (a b : List Char)
  | three (a b c : List Char)
  deriving DecidableEq

/-- Python `s.split(".", 2)` (at most two splits, at the leftmost dots). -/
def splitDotTwo (l : List Char) : Split3 :=
  match splitFirstOn '.' l with
  | none => .one l
  | some (a, rest) =>
    match splitFirstOn '.' rest with
    | none => .two a rest
    | some (b, rest2) => .three a b rest2

/-! ## SQL classifier (`_is_sql`, server.py:102-105) -/

/-- `_is_sql`: the left-trimmed lower-cased text starts with a SQL keyword or
with the literal prefix `sql:`. -/
def _is_sql (text : List Char) : Bool :=
  let stripped := pyLower (pyLstrip text)
  (chars "select").isPrefixOf stripped || (chars "with").isPrefixOf stripped
    || (chars "insert").isPrefixOf stripped || (chars "update").isPrefixOf stripped
    || (chars "delete").isPrefixOf stripped || (chars "merge").isPrefixOf stripped
    || (chars "sql:").isPrefixOf stripped

/-! ## Statement execution engine (`_run_sql`, server.py:52-79) -/

/-- The poll loop of `_run_sql` (server.py:70-79): up to `fuel` status GETs
starting at attempt `i`; returns the full status on `SUCCEEDED`-with-result,
raises `RuntimeError("SQL execution failed: …")` on `FAILED`, raises
`TimeoutError` when the budget is exhausted. -/
def pollLoop (polls : Nat → Except PyExc SqlStatus) : Nat → Nat → Except PyExc SqlStatus
  | _, 0 => .error (.timeoutError (chars "SQL timed out after wait_timeout"))
  | i, fuel + 1 =>
    match polls i with
    | .error e => .error e
    | .ok status =>
      if status.state == chars "SUCCEEDED" && status.hasResult then .ok status
      else if status.state == chars "FAILED" then
        .error (.runtimeError
          (chars "SQL execution failed: " ++ status.errorMessage.getD status.reprStr))
      else pollLoop polls (i + 1) fuel

/-- `_run_sql sql wait`: submit, then poll up to `wait` times. -/
def _run_sql (se : SqlEnv) (sql : List Char) (wait : Nat) : Except PyExc SqlStatus :=
  match se.submit sql with
  | .error e => .error e
  | .ok _ => pollLoop (se.polls sql) 0 wait

/-! ## Search dispatcher (`search`, server.py:110-165) -/

/-- Truncated SQL preview (server.py:124): first 60 chars + ellipsis if longer. -/
def sqlPreview (sql : List Char) : List Char :=
  if sql.length > 60 then sql.take 60 ++ ['…'] else sql

/-- The catalog entry appended for a matching catalog (server.py:135-140). -/
def catalogResult (c : UCObj) : SearchResult :=
  .item (chars "catalog::" ++ c.name) (chars "Catalog: " ++ c.name)
    (c.comment.getD []) (.objMeta c)

/-- The schema entry appended for a matching schema (server.py:146-151). -/
def schemaResult (fq : List Char) (s : UCObj) : SearchResult :=
  .item (chars "schema::" ++ fq) (chars "Schema: " ++ fq)
    (s.comment.getD []) (.objMeta s)

/-- The table entry appended for a matching table (server.py:156-161). -/
def tableResult (fqt : List Char) (tb : UCObj) : SearchResult :=
  .item (chars "table::" ++ fqt) (chars "Table: " ++ fqt)
    (tb.comment.getD []) (.objMeta tb)

/-- First loop of the metadata path (server.py:133-140): catalog-name matches. -/
def catalogMatches (qlc : List Char) : List UCObj → List SearchResult
  | [] => []
  | c :: rest =>
    (if pyIn qlc (pyLower c.name) then [catalogResult c] else [])
      ++ catalogMatches qlc rest

/-- Inner table loop (server.py:153-161): matches of `qlc` against
`fq + "." + table` for each table. -/
def tableMatches (qlc fq : List Char) : List UCObj → List SearchResult
  | [] => []
  | tb :: rest =>
    (if pyIn qlc (pyLower (fq ++ '.' :: tb.name)) then [tableResult (fq ++ '.' :: tb.name) tb]
     else [])
      ++ tableMatches qlc fq rest

/-- Schema loop for one catalog (server.py:143-161).  `Except.error (p, e)`
means exception `e` escaped after the entries `p` had been appended. -/
def schLoop (env : MetaEnv) (qlc catName : List Char) :
    List UCObj → Except (List SearchResult × PyExc) (List SearchResult)
  | [] => .ok []
  | sch :: rest =>
    let fq := catName ++ '.' :: sch.name
    let hd := if pyIn qlc (pyLower fq) then [schemaResult fq sch] else []
    match env.tables catName sch.name with
    | .error e => .error (hd, e)
    | .ok tbls =>
      match schLoop env qlc catName rest with
      | .ok rs => .ok (hd ++ tableMatches qlc fq tbls ++ rs)
      | .error (p, e) => .error (hd ++ tableMatches qlc fq tbls ++ p, e)

/-- Second catalog loop (server.py:141-161): per catalog, list schemas and run
the schema loop; an exception aborts everything downstream. -/
def catLoop (env : MetaEnv) (qlc : List Char) :
    List UCObj → Except (List SearchResult × PyExc) (List SearchResult)
  | [] => .ok []
  | cat :: rest =>
    match env.schemas cat.name with
    | .error e => .error ([], e)
    | .ok schs =>
      match schLoop env qlc cat.name schs with
      | .error (p, e) => .error (p, e)
      | .ok rs =>
        match catLoop env qlc rest with
        | .ok rs2 => .ok (rs ++ rs2)
        | .error (p, e) => .error (rs ++ p, e)

/-- The metadata search path (server.py:129-165): the whole body sits in one
`try`; on an exception the entries gathered so far are kept and a single
`{"error": str(exc)}` entry is appended. -/
def searchMeta (env : MetaEnv) (qlc : List Char) : List SearchResult :=
  match env.catalogs with
  | .error e => [SearchResult.error (PyExc.str e)]
  | .ok cats =>
    match catLoop env qlc cats with
    | .ok more => catalogMatches qlc cats ++ more
    | .error (p, e) => catalogMatches qlc cats ++ p ++ [SearchResult.error (PyExc.str e)]

/-- `search` (server.py:110-165).  SQL path: strip the `sql:` prefix when the
raw query starts with it (case-insensitively), trim, and return the single
stub result; otherwise run the metadata search on the lower-cased query. -/
def search (env : MetaEnv) (query : List Char) : List SearchResult :=
  if _is_sql query then
    let sql :=
      if (chars "sql:").isPrefixOf (pyLower query) then pyStrip (query.drop 4)
      else pyStrip query
    [SearchResult.item (chars "query::" ++ sql) (chars "SQL query preview")
      (sqlPreview sql) (.sqlMeta sql)]
  else
    searchMeta env (pyLower query)

/-! ## Fetch dispatcher (`fetch`, server.py:170-213) -/

/-- `rid.split("::", 1)[1]` as used on the query path (server.py:178), where
the caller has already checked the `query::` prefix, so the split succeeds. -/
def extractQuerySql (rid : List Char) : List Char :=
  match splitOnColons rid with
  | some p => p.2
  | none => []

/-- The `{"error": f"Resource '{rid}' not found"}` message (server.py:211). -/
def notFoundMsg (rid : List Char) : List Char :=
  chars "Resource '" ++ rid ++ chars "' not found"

/-- The metadata arm of `fetch` (server.py:196-213): dispatch on the kind tag,
point-lookup through the metadata client, `ValueError` from tuple unpacking
and remote errors are caught and stringified by the surrounding `except`. -/
def fetchMeta (env : MetaEnv) (rid kind name : List Char) : FetchResult :=
  if kind = chars "catalog" then
    match env.catalogs with
    | .error e => .err (PyExc.str e)
    | .ok cats =>
      match cats.find? (fun c => c.name == name) with
      | some c => .ok rid (chars "Catalog: " ++ name) (c.comment.getD []) (.objMeta c)
      | none => .err (notFoundMsg rid)
  else if kind = chars "schema" then
    match splitFirstOn '.' name with
    | none => .err (chars "not enough values to unpack (expected 2, got 1)")
    | some (cat, sch) =>
      match env.schemas cat with
      | .error e => .err (PyExc.str e)
      | .ok schs =>
        match schs.find? (fun s => s.name == sch) with
        | some s => .ok rid (chars "Schema: " ++ name) (s.comment.getD []) (.objMeta s)
        | none => .err (notFoundMsg rid)
  else if kind = chars "table" then
    match splitDotTwo name with
    | .one _ => .err (chars "not enough values to unpack (expected 3, got 1)")
    | .two _ _ => .err (chars "not enough values to unpack (expected 3, got 2)")
    | .three cat sch tbl =>
      match env.tables cat sch with
      | .error e => .err (PyExc.str e)
      | .ok tbls =>
        match tbls.find? (fun tb => tb.name == tbl) with
        | some tb => .ok rid (chars "Table: " ++ name) (tb.comment.getD []) (.objMeta tb)
        | none => .err (notFoundMsg rid)
  else .err (notFoundMsg rid)

/-- `fetch` (server.py:170-213).  The query path runs `_run_sql` with the
default wait budget of 15; any exception out of it — including the `KeyError`
from `res['manifest']['total_row_count']` — is caught and wrapped as
`{"error": f"SQL execution failed: {exc}"}`.  The metadata path returns
`{"error": "Bad ID format"}` when the id has no `"::"`. -/
def fetch (env : Env) (rid : List Char) : FetchResult :=
  if (chars "query::").isPrefixOf rid then
    match _run_sql env.sql (extractQuerySql rid) 15 with
    | .error e => .err (chars "SQL execution failed: " ++ PyExc.str e)
    | .ok res =>
      match res.manifest with
      | none => .err (chars "SQL execution failed: " ++ PyExc.str (.keyError (chars "manifest")))
      | some man =>
        match man.total_row_count with
        | none =>
          .err (chars "SQL execution failed: "
            ++ PyExc.str (.keyError (chars "total_row_count")))
        | some n =>
          .ok rid (chars "SQL query result")
            (chars "Returned " ++ (Nat.repr n).data ++ chars " row(s)") (.statusMeta res)
  else
    match splitOnColons rid with
    | none => .err (chars "Bad ID format")
    | some (kind, name) => fetchMeta env.meta rid kind name


/-! ## String and codec lemmas -/

lemma splitOnColons_colons (l : List Char) : splitOnColons (':' :: ':' :: l) = some ([], l) := by
  simp [splitOnColons]

lemma splitOnColons_cons₂ (a b : Char) (l : List Char) (h : ¬(a = ':' ∧ b = ':')) :
    splitOnColons (a :: b :: l) = (splitOnColons (b :: l)).map fun p => (a :: p.1, p.2) := by
  simp [splitOnColons, h]

lemma splitOnColons_query (sql : List Char) :
    splitOnColons (chars "query::" ++ sql) = some (chars "query", sql) := by
  show splitOnColons ('q' :: 'u' :: 'e' :: 'r' :: 'y' :: ':' :: ':' :: sql) = some (chars "query", sql)
  rw [splitOnColons_cons₂ _ _ _ (by decide), splitOnColons_cons₂ _ _ _ (by decide),
      splitOnColons_cons₂ _ _ _ (by decide), splitOnColons_cons₂ _ _ _ (by decide),
      splitOnColons_cons₂ _ _ _ (by decide), splitOnColons_colons]
  rfl

lemma extractQuerySql_append (sql : List Char) :
    extractQuerySql (chars "query::" ++ sql) = sql := by
  simp [extractQuerySql, splitOnColons_query]

lemma isPrefixOf_append_self (l t : List Char) : l.isPrefixOf (l ++ t) = true := by
  simp [List.isPrefixOf_iff_prefix]

lemma exists_append_of_isPrefixOf (p l : List Char) (h : p.isPrefixOf l = true) :
    ∃ t, l = p ++ t := by
  rw [List.isPrefixOf_iff_prefix] at h
  obtain ⟨t, ht⟩ := h
  exact ⟨t, ht.symm⟩

/--
C4: for every SQL text `sqlText`, including text containing embedded `::` or
`.`, the id `"query::" ++ sqlText` built by `search` decodes back to the very
same text by `fetch`'s split on the first `"::"` (`rid.split("::", 1)[1]`,
embedded as `splitOnColons`/`extractQuerySql`): `splitOnColons` stops at the
first `"::"` and applies no further delimiter splitting to a query payload.
-/
theorem c4_query_roundtrip (sqlText : List Char) :
    splitOnColons (chars "query::" ++ sqlText) = some (chars "query", sqlText)
    ∧ extractQuerySql (chars "query::" ++ sqlText) = sqlText :=
  ⟨splitOnColons_query sqlText, extractQuerySql_append sqlText⟩

/-! ## Poll-loop lemmas -/

/-- The poll loop hands back an `Except.ok` only for a status that is
`SUCCEEDED` with a (truthy) result payload. -/
def okOnlyProperSuccess : Except PyExc SqlStatus → Bool
  | .ok s => s.state == chars "SUCCEEDED" && s.hasResult
  | .error _ => true

lemma pollLoop_ok_inv (polls : Nat → Except PyExc SqlStatus) :
    ∀ (fuel i : Nat), okOnlyProperSuccess (pollLoop polls i fuel) = true := by
  intro fuel
  induction fuel with
  | zero => intro i; rfl
  | succ n ih =>
    intro i
    cases hp : polls i with
    | error e => simp [pollLoop, hp, okOnlyProperSuccess]
    | ok s =>
      by_cases hc : (s.state == chars "SUCCEEDED" && s.hasResult) = true
      · simp [pollLoop, hp, hc, okOnlyProperSuccess]
      · by_cases hf : (s.state == chars "FAILED") = true
        · simp [pollLoop, hp, hc, hf, okOnlyProperSuccess]
        · simpa [pollLoop, hp, hc, hf] using ih (i + 1)

/--
C5: in `_run_sql`'s poll loop, a status whose state is `"SUCCEEDED"` but whose
result payload is absent is not terminal: the loop does not return it and
moves on to the next polling attempt; and any `Except.ok` outcome of the loop
carries state `"SUCCEEDED"` together with a present result payload.
-/
theorem c5_succeeded_without_result_not_terminal
    (polls : Nat → Except PyExc SqlStatus) (i fuel : Nat) (s : SqlStatus)
    (h1 : polls i = .ok s) (h2 : s.state = chars "SUCCEEDED") (h3 : s.hasResult = false) :
    pollLoop polls i (fuel + 1) = pollLoop polls (i + 1) fuel
    ∧ okOnlyProperSuccess (pollLoop polls i fuel) = true := by
  constructor
  · have e1 : (s.state == chars "SUCCEEDED" && s.hasResult) = false := by
      rw [h2, h3]; decide
    have e2 : (s.state == chars "FAILED") = false := by rw [h2]; decide
    simp [pollLoop, h1, e1, e2]
  · exact pollLoop_ok_inv polls fuel i

/-- A first-poll status: succeeded according to `state` but with no result. -/
def succNoResultStatus : SqlStatus := ⟨chars "SUCCEEDED", none, false, none, chars "status"⟩

/-- A poll sequence that always reports `succNoResultStatus`. -/
def pollsSuccNoResult : Nat → Except PyExc SqlStatus := fun _ => .ok succNoResultStatus

theorem c5_witness :
    pollsSuccNoResult 0 = .ok succNoResultStatus
    ∧ succNoResultStatus.state = chars "SUCCEEDED"
    ∧ succNoResultStatus.hasResult = false
    ∧ (pollLoop pollsSuccNoResult 0 (0 + 1) = pollLoop pollsSuccNoResult (0 + 1) 0
       ∧ okOnlyProperSuccess (pollLoop pollsSuccNoResult 0 0) = true) :=
  ⟨rfl, rfl, rfl,
    c5_succeeded_without_result_not_terminal pollsSuccNoResult 0 0 succNoResultStatus rfl rfl rfl⟩


/-! ## Fetch query-path reduction -/

lemma fetch_query_error (env : Env) (sql : List Char) (e : PyExc)
    (h : _run_sql env.sql sql 15 = .error e) :
    fetch env (chars "query::" ++ sql)
      = .err (chars "SQL execution failed: " ++ PyExc.str e) := by
  simp [fetch, isPrefixOf_append_self, extractQuerySql_append, h]

/-! ## Timeout (claim C6) -/

/-- A poll outcome that is neither terminal nor an exception: the status came
back but is not `SUCCEEDED`-with-result and not `FAILED`. -/
def pollPending : Except PyExc SqlStatus → Bool
  | .ok s => !(s.state == chars "SUCCEEDED" && s.hasResult) && !(s.state == chars "FAILED")
  | .error _ => false

/-- All of the first `n` polling attempts are pending. -/
def allPending (polls : Nat → Except PyExc SqlStatus) (n : Nat) : Bool :=
  (List.range n).all fun j => pollPending (polls j)

lemma pollLoop_timeout (polls : Nat → Except PyExc SqlStatus) :
    ∀ (fuel i : Nat), (∀ j, j < fuel → pollPending (polls (i + j)) = true) →
      pollLoop polls i fuel
        = .error (.timeoutError (chars "SQL timed out after wait_timeout")) := by
  intro fuel
  induction fuel with
  | zero => intro i _; rfl
  | succ n ih =>
    intro i h
    have h0 := h 0 (Nat.succ_pos n)
    rw [Nat.add_zero] at h0
    cases hp : polls i with
    | error e => rw [hp] at h0; simp [pollPending] at h0
    | ok s =>
      rw [hp] at h0
      simp only [pollPending, Bool.and_eq_true, Bool.not_eq_true'] at h0
      simp only [pollLoop, hp, h0.1, h0.2, if_false, Bool.false_eq_true]
      exact ih (i + 1) fun j hj => by
        have hsucc := h (j + 1) (Nat.succ_lt_succ hj)
        rwa [show i + (j + 1) = (i + 1) + j by omega] at hsucc

/--
C6: if the statement service never reports a terminal outcome
(`SUCCEEDED`-with-result or `FAILED`) in any of the 15 polling attempts of the
default wait budget, `_run_sql` fails with the timeout-classified exception
(`TimeoutError`, the model of `SqlTimeoutError`), and `fetch` converts it into
the error-shaped result instead of letting the exception escape.
-/
theorem c6_timeout_degrades (env : Env) (sql : List Char)
    (hsub : env.sql.submit sql = .ok ())
    (hp : allPending (env.sql.polls sql) 15 = true) :
    _run_sql env.sql sql 15
      = .error (.timeoutError (chars "SQL timed out after wait_timeout"))
    ∧ fetch env (chars "query::" ++ sql)
        = .err (chars "SQL execution failed: SQL timed out after wait_timeout") := by
  have hp2 : ∀ j, j < 15 → pollPending (env.sql.polls sql j) = true := by
    intro j hj
    have := (List.all_eq_true.mp hp) j (List.mem_range.mpr hj)
    simpa using this
  have hrun : _run_sql env.sql sql 15
      = .error (.timeoutError (chars "SQL timed out after wait_timeout")) := by
    unfold _run_sql
    rw [hsub]
    exact pollLoop_timeout (env.sql.polls sql) 15 0 fun j hj => by
      simpa using hp2 j hj
  exact ⟨hrun, by rw [fetch_query_error env sql _ hrun]; rfl⟩

/-- A status that is neither terminal nor failed. -/
def pendingStatus : SqlStatus := ⟨chars "PENDING", none, false, none, chars "status"⟩

/-- A metadata service with no catalogs at all. -/
def emptyMeta : PureMeta := ⟨[], fun _ => [], fun _ _ => []⟩

/-- An environment whose statement service accepts the submission and then
reports a pending status forever. -/
def pendingEnv : Env :=
  ⟨PureMeta.toEnv emptyMeta, ⟨fun _ => .ok (), fun _ _ => .ok pendingStatus⟩⟩

theorem c6_witness :
    pendingEnv.sql.submit (chars "SELECT 1") = .ok ()
    ∧ allPending (pendingEnv.sql.polls (chars "SELECT 1")) 15 = true
    ∧ (_run_sql pendingEnv.sql (chars "SELECT 1") 15
        = .error (.timeoutError (chars "SQL timed out after wait_timeout"))
      ∧ fetch pendingEnv (chars "query::SELECT 1")
        = .err (chars "SQL execution failed: SQL timed out after wait_timeout")) :=
  ⟨rfl, by decide, c6_timeout_degrades pendingEnv (chars "SELECT 1") rfl (by decide)⟩

/-! ## Failed statement (claim C1) -/

/--
C1, amended: when the statement service reports state `"FAILED"` with error
message `m` on the first poll, `fetch "query::<sql>"` returns an error-shaped
result whose message carries the `"SQL execution failed: "` prefix twice —
once from the `RuntimeError` raised inside `_run_sql` (server.py:77) and once
more from the wrapper in `fetch` (server.py:188) — followed by `m`.
-/
theorem c1_amended_double_prefix (env : Env) (sql : List Char) (s : SqlStatus) (m : List Char)
    (hsub : env.sql.submit sql = .ok ())
    (hpoll : env.sql.polls sql 0 = .ok s)
    (hstate : s.state = chars "FAILED")
    (hmsg : s.errorMessage = some m) :
    fetch env (chars "query::" ++ sql)
      = .err (chars "SQL execution failed: SQL execution failed: " ++ m) := by
  have hb : (chars "FAILED" == chars "SUCCEEDED") = false := by decide
  have e1 : (s.state == chars "SUCCEEDED" && s.hasResult) = false := by
    rw [hstate, hb, Bool.false_and]
  have e2 : (s.state == chars "FAILED") = true := by rw [hstate]; decide
  have hrun : _run_sql env.sql sql 15
      = .error (.runtimeError (chars "SQL execution failed: " ++ m)) := by
    unfold _run_sql
    rw [hsub]
    show pollLoop (env.sql.polls sql) 0 15 = _
    rw [show (15 : Nat) = 14 + 1 from rfl]
    simp [pollLoop, hpoll, e1, e2, hmsg]
  rw [fetch_query_error env sql _ hrun]
  rfl

/-- The status of a statement that failed with message `"syntax error"`. -/
def failedSyntaxStatus : SqlStatus :=
  ⟨chars "FAILED", some (chars "syntax error"), false, none, chars "status"⟩

/-- An environment whose statement service reports `failedSyntaxStatus`. -/
def failedEnv : Env :=
  ⟨PureMeta.toEnv emptyMeta, ⟨fun _ => .ok (), fun _ _ => .ok failedSyntaxStatus⟩⟩

theorem c1_counterexample :
    fetch failedEnv (chars "query::BAD")
      = .err (chars "SQL execution failed: SQL execution failed: syntax error")
    ∧ fetch failedEnv (chars "query::BAD")
      ≠ .err (chars "SQL execution failed: syntax error") := by
  constructor
  · decide
  · decide

theorem c1_witness :
    failedEnv.sql.submit (chars "BAD") = .ok ()
    ∧ failedEnv.sql.polls (chars "BAD") 0 = .ok failedSyntaxStatus
    ∧ failedSyntaxStatus.state = chars "FAILED"
    ∧ failedSyntaxStatus.errorMessage = some (chars "syntax error")
    ∧ fetch failedEnv (chars "query::BAD")
        = .err (chars "SQL execution failed: SQL execution failed: " ++ chars "syntax error") :=
  ⟨rfl, rfl, rfl, rfl,
    c1_amended_double_prefix failedEnv (chars "BAD") failedSyntaxStatus (chars "syntax error")
      rfl rfl rfl rfl⟩

/-! ## Succeeded statement without a usable manifest (claim C9) -/

/-- Whether `res["manifest"]["total_row_count"]` would evaluate without a
`KeyError`. -/
def statusHasRowCount (s : SqlStatus) : Bool :=
  match s.manifest with
  | none => false
  | some man => man.total_row_count.isSome

/-- The `str(KeyError(…))` message produced by
`res["manifest"]["total_row_count"]` on a status lacking one of the keys. -/
def missingKeyMsg (s : SqlStatus) : List Char :=
  match s.manifest with
  | none => PyExc.str (.keyError (chars "manifest"))
  | some _ => PyExc.str (.keyError (chars "total_row_count"))

/--
C9: even when `_run_sql` returns a succeeded status, if that status lacks a
`manifest` with a `total_row_count`, `fetch` does not return the
success-shaped result: the `KeyError` raised by
`res["manifest"]["total_row_count"]` is caught by the same handler as engine
failures, and `fetch` returns
`{"error": "SQL execution failed: <key-error message>"}`.
-/
theorem c9_missing_manifest_is_error (env : Env) (sql : List Char) (s : SqlStatus)
    (hrun : _run_sql env.sql sql 15 = .ok s)
    (hmiss : statusHasRowCount s = false) :
    fetch env (chars "query::" ++ sql)
      = .err (chars "SQL execution failed: " ++ missingKeyMsg s) := by
  cases hman : s.manifest with
  | none =>
    simp [fetch, isPrefixOf_append_self, extractQuerySql_append, hrun, hman, missingKeyMsg]
  | some man =>
    cases htot : man.total_row_count with
    | none =>
      simp [fetch, isPrefixOf_append_self, extractQuerySql_append, hrun, hman, htot,
        missingKeyMsg]
    | some n =>
      simp [statusHasRowCount, hman, htot] at hmiss

/-- A succeeded status carrying a result payload but no manifest. -/
def succNoManifestStatus : SqlStatus := ⟨chars "SUCCEEDED", none, true, none, chars "status"⟩

/-- An environment whose statement service reports `succNoManifestStatus`. -/
def noManifestEnv : Env :=
  ⟨PureMeta.toEnv emptyMeta, ⟨fun _ => .ok (), fun _ _ => .ok succNoManifestStatus⟩⟩

theorem c9_witness :
    _run_sql noManifestEnv.sql (chars "SELECT 1") 15 = .ok succNoManifestStatus
    ∧ statusHasRowCount succNoManifestStatus = false
    ∧ fetch noManifestEnv (chars "query::SELECT 1")
        = .err (chars "SQL execution failed: " ++ missingKeyMsg succNoManifestStatus) :=
  ⟨rfl, rfl,
    c9_missing_manifest_is_error noManifestEnv (chars "SELECT 1") succNoManifestStatus
      rfl rfl⟩


/-! ## SQL search path (claim C2) -/

/-- The normalization the spec describes for the SQL path: strip a leading
`sql:` prefix if present (checked case-insensitively on the raw, untrimmed
query, as `query.lower().startswith("sql:")` does), then trim whitespace. -/
def specNormalizeSql (q : List Char) : List Char :=
  pyStrip (if (chars "sql:").isPrefixOf (pyLower q) then q.drop 4 else q)

/--
C2: for every query classified as SQL by `_is_sql`, `search` returns exactly
one `SearchResult`, whose id is `"query::" ++ sql`, title the fixed string
`"SQL query preview"`, and metadata `{"sql": sql}`, where `sql` is the query
with a leading `sql:` prefix stripped (when the raw query starts with it,
case-insensitively) and whitespace trimmed.
-/
theorem c2_sql_search_stub (env : MetaEnv) (q : List Char) (h : _is_sql q = true) :
    search env q
      = [SearchResult.item (chars "query::" ++ specNormalizeSql q) (chars "SQL query preview")
          (sqlPreview (specNormalizeSql q)) (.sqlMeta (specNormalizeSql q))] := by
  by_cases hp : ((chars "sql:").isPrefixOf (pyLower q)) = true
  · simp [search, h, specNormalizeSql, hp]
  · simp [search, h, specNormalizeSql, hp]

theorem c2_witness :
    _is_sql (chars "select 1") = true
    ∧ search (PureMeta.toEnv emptyMeta) (chars "select 1")
        = [SearchResult.item (chars "query::" ++ specNormalizeSql (chars "select 1"))
            (chars "SQL query preview") (sqlPreview (specNormalizeSql (chars "select 1")))
            (.sqlMeta (specNormalizeSql (chars "select 1")))] :=
  ⟨by decide, c2_sql_search_stub (PureMeta.toEnv emptyMeta) (chars "select 1") (by decide)⟩

/-! ## Error entries in search output (claim C7) -/

/-- Whether a search entry is the `{"error": …}` entry. -/
def SearchResult.isErrorEntry : SearchResult → Bool
  | .error _ => true
  | .item _ _ _ _ => false

/-- No `{"error": …}` entry occurs in the list. -/
def errFree : List SearchResult → Bool
  | [] => true
  | r :: rest => !r.isErrorEntry && errFree rest

lemma errFree_append (a b : List SearchResult) :
    errFree (a ++ b) = (errFree a && errFree b) := by
  induction a with
  | nil => simp [errFree]
  | cons r rest ih => simp [errFree, ih, Bool.and_assoc]

lemma errFree_catalogMatches (qlc : List Char) (cats : List UCObj) :
    errFree (catalogMatches qlc cats) = true := by
  induction cats with
  | nil => rfl
  | cons c rest ih =>
    by_cases h : pyIn qlc (pyLower c.name) = true <;>
      simp [catalogMatches, h, errFree_append, ih, errFree, catalogResult,
        SearchResult.isErrorEntry]

lemma errFree_tableMatches (qlc fq : List Char) (tbls : List UCObj) :
    errFree (tableMatches qlc fq tbls) = true := by
  induction tbls with
  | nil => rfl
  | cons tb rest ih =>
    by_cases h : pyIn qlc (pyLower (fq ++ '.' :: tb.name)) = true <;>
      simp [tableMatches, h, errFree_append, ih, errFree, tableResult,
        SearchResult.isErrorEntry]

lemma errFree_schemaEntry (b : Prop) [Decidable b] (fq : List Char) (sch : UCObj) :
    errFree (if b then [schemaResult fq sch] else []) = true := by
  by_cases h : b <;> simp [h, errFree, schemaResult, SearchResult.isErrorEntry]

/-- The entries accumulated by a loop step are error-free whether the step
completed or aborted with an exception. -/
def exceptEntriesOk : Except (List SearchResult × PyExc) (List SearchResult) → Bool
  | .ok rs => errFree rs
  | .error (p, _) => errFree p

lemma schLoop_entries_ok (env : MetaEnv) (qlc catName : List Char) (schs : List UCObj) :
    exceptEntriesOk (schLoop env qlc catName schs) = true := by
  induction schs with
  | nil => rfl
  | cons sch rest ih =>
    cases ht : env.tables catName sch.name with
    | error e =>
      simp [schLoop, ht, exceptEntriesOk, errFree_schemaEntry]
    | ok tbls =>
      cases hrec : schLoop env qlc catName rest with
      | ok rs =>
        rw [hrec] at ih
        simp [schLoop, ht, hrec, exceptEntriesOk, errFree_append, errFree_schemaEntry,
          errFree_tableMatches] at ih ⊢
        exact ih
      | error pe =>
        obtain ⟨p, e⟩ := pe
        rw [hrec] at ih
        simp [schLoop, ht, hrec, exceptEntriesOk, errFree_append, errFree_schemaEntry,
          errFree_tableMatches] at ih ⊢
        exact ih

lemma catLoop_entries_ok (env : MetaEnv) (qlc : List Char) (cats : List UCObj) :
    exceptEntriesOk (catLoop env qlc cats) = true := by
  induction cats with
  | nil => rfl
  | cons cat rest ih =>
    cases hs : env.schemas cat.name with
    | error e => simp [catLoop, hs, exceptEntriesOk, errFree]
    | ok schs =>
      have hsch := schLoop_entries_ok env qlc cat.name schs
      cases hsl : schLoop env qlc cat.name schs with
      | error pe =>
        obtain ⟨p, e⟩ := pe
        rw [hsl] at hsch
        simp [catLoop, hs, hsl, exceptEntriesOk] at hsch ⊢
        exact hsch
      | ok rs =>
        rw [hsl] at hsch
        simp [exceptEntriesOk] at hsch
        cases hrec : catLoop env qlc rest with
        | ok rs2 =>
          rw [hrec] at ih
          simp [catLoop, hs, hsl, hrec, exceptEntriesOk, errFree_append] at ih ⊢
          exact ⟨hsch, ih⟩
        | error pe =>
          obtain ⟨p, e⟩ := pe
          rw [hrec] at ih
          simp [catLoop, hs, hsl, hrec, exceptEntriesOk, errFree_append] at ih ⊢
          exact ⟨hsch, ih⟩

lemma errFree_dropLast : ∀ (l : List SearchResult), errFree l = true → errFree l.dropLast = true
  | [], _ => rfl
  | [_], _ => rfl
  | a :: b :: rest, h => by
    simp only [errFree, Bool.and_eq_true] at h
    have ih := errFree_dropLast (b :: rest) (by simp [errFree, h.2.1, h.2.2])
    show errFree (a :: (b :: rest).dropLast) = true
    simp [errFree, h.1, ih]

lemma search_dropLast_errFree (env : MetaEnv) (q : List Char) :
    errFree (search env q).dropLast = true := by
  by_cases hs : _is_sql q = true
  · simp [search, hs, errFree]
  · simp only [search, hs, if_false, Bool.false_eq_true]
    unfold searchMeta
    cases hc : env.catalogs with
    | error e => simp [errFree]
    | ok cats =>
      have hcl := catLoop_entries_ok env (pyLower q) cats
      cases hloop : catLoop env (pyLower q) cats with
      | ok more =>
        rw [hloop] at hcl
        simp only [exceptEntriesOk] at hcl
        simp only [hloop]
        exact errFree_dropLast _ (by
          simp [errFree_append, errFree_catalogMatches, hcl])
      | error pe =>
        obtain ⟨p, e⟩ := pe
        rw [hloop] at hcl
        simp only [exceptEntriesOk] at hcl
        simp only [hloop]
        rw [List.dropLast_concat]
        simp [errFree_append, errFree_catalogMatches, hcl]

/--
C7: `search` and `fetch` never propagate an exception.  Modelled consequences:
(a) any `{"error": …}` entry in a `search` result list can only be its last
element — a metadata-client error is appended as a single error entry after
the partial results already gathered, and the call still returns a list; and
(b) any exception the statement engine raises on the query path (execution
failure, timeout, `requests` errors, …) is caught at the `fetch` boundary and
converted into the error-shaped result `{"error": "SQL execution failed: …"}`.
-/
theorem c7_never_throws (env : Env) (q rid : List Char) (e : PyExc)
    (hq : (chars "query::").isPrefixOf rid = true)
    (hrun : _run_sql env.sql (extractQuerySql rid) 15 = .error e) :
    errFree (search env.meta q).dropLast = true
    ∧ fetch env rid = .err (chars "SQL execution failed: " ++ PyExc.str e) := by
  refine ⟨search_dropLast_errFree env.meta q, ?_⟩
  simp [fetch, hq, hrun]

/-- A metadata service whose catalog listing succeeds but whose schema
listing raises, so that a search degrades to partial results + error entry. -/
def halfBrokenMeta : MetaEnv :=
  ⟨.ok [⟨chars "sales", none⟩], fun _ => .error (.requestError (chars "connection reset")),
    fun _ _ => .ok []⟩

/-- An environment whose statement service rejects the submission POST. -/
def brokenEnv : Env :=
  ⟨halfBrokenMeta, ⟨fun _ => .error (.requestError (chars "boom")), fun _ _ => .ok pendingStatus⟩⟩

theorem c7_witness :
    (chars "query::").isPrefixOf (chars "query::SELECT 1") = true
    ∧ _run_sql brokenEnv.sql (extractQuerySql (chars "query::SELECT 1")) 15
        = .error (.requestError (chars "boom"))
    ∧ (errFree (search brokenEnv.meta (chars "sales")).dropLast = true
      ∧ fetch brokenEnv (chars "query::SELECT 1")
          = .err (chars "SQL execution failed: " ++ PyExc.str (.requestError (chars "boom")))) :=
  ⟨by decide, rfl,
    c7_never_throws brokenEnv (chars "sales") (chars "query::SELECT 1")
      (.requestError (chars "boom")) (by decide) rfl⟩


/-! ## Metadata search order on a pure environment (claims C8, C10) -/

/-- The spec's notion of matching: case-insensitive substring match of the
query against a fully-qualified name. -/
def specMatch (q name : List Char) : Bool := pyIn (pyLower q) (pyLower name)

/-- Concatenation of the lists produced for each element, in order. -/
def concatMap {α β : Type} (f : α → List β) : List α → List β
  | [] => []
  | a :: rest => f a ++ concatMap f rest

@[simp] lemma toEnv_catalogs (m : PureMeta) :
    (PureMeta.toEnv m).catalogs = .ok m.catalogs := rfl

@[simp] lemma toEnv_schemas (m : PureMeta) (c : List Char) :
    (PureMeta.toEnv m).schemas c = .ok (m.schemas c) := rfl

@[simp] lemma toEnv_tables (m : PureMeta) (c sch : List Char) :
    (PureMeta.toEnv m).tables c sch = .ok (m.tables c sch) := rfl

lemma concatMap_congr {α β : Type} (f g : α → List β) (l : List α)
    (h : ∀ a, a ∈ l → f a = g a) : concatMap f l = concatMap g l := by
  induction l with
  | nil => rfl
  | cons a rest ih =>
    simp only [concatMap, h a (List.mem_cons_self a rest)]
    rw [ih fun b hb => h b (List.mem_cons_of_mem a hb)]

lemma catalogMatches_spec (q : List Char) (cats : List UCObj) :
    catalogMatches (pyLower q) cats
      = (cats.filter fun c => specMatch q c.name).map catalogResult := by
  induction cats with
  | nil => rfl
  | cons c rest ih =>
    by_cases h : specMatch q c.name = true
    · simp only [specMatch] at h
      simp [catalogMatches, specMatch, h, List.filter_cons, ih]
    · simp only [specMatch] at h
      simp [catalogMatches, specMatch, h, List.filter_cons, ih]

lemma tableMatches_spec (q fq : List Char) (tbls : List UCObj) :
    tableMatches (pyLower q) fq tbls
      = (tbls.filter fun tb => specMatch q (fq ++ '.' :: tb.name)).map
          (fun tb => tableResult (fq ++ '.' :: tb.name) tb) := by
  induction tbls with
  | nil => rfl
  | cons tb rest ih =>
    by_cases h : specMatch q (fq ++ '.' :: tb.name) = true
    · simp only [specMatch] at h
      simp [tableMatches, specMatch, h, List.filter_cons, ih]
    · simp only [specMatch] at h
      simp [tableMatches, specMatch, h, List.filter_cons, ih]

/-- The spec's per-schema block: the matching schema entry (if any) followed
immediately by that schema's matching tables. -/
def specSchemaBlock (m : PureMeta) (q catName : List Char) (sch : UCObj) : List SearchResult :=
  (if specMatch q (catName ++ '.' :: sch.name)
   then [schemaResult (catName ++ '.' :: sch.name) sch] else [])
  ++ ((m.tables catName sch.name).filter fun tb =>
        specMatch q ((catName ++ '.' :: sch.name) ++ '.' :: tb.name)).map
      (fun tb => tableResult ((catName ++ '.' :: sch.name) ++ '.' :: tb.name) tb)

/-- The spec's result order: all matching catalogs first, in catalog-listing
order, then per catalog in that same order, per schema in schema-listing
order, the matching schema entry followed by its matching tables. -/
def specSearchOrder (m : PureMeta) (q : List Char) : List SearchResult :=
  ((m.catalogs.filter fun c => specMatch q c.name).map catalogResult)
  ++ concatMap (fun c => concatMap (specSchemaBlock m q c.name) (m.schemas c.name)) m.catalogs

lemma schLoop_pure (m : PureMeta) (q catName : List Char) (schs : List UCObj) :
    schLoop (PureMeta.toEnv m) (pyLower q) catName schs
      = .ok (concatMap (specSchemaBlock m q catName) schs) := by
  induction schs with
  | nil => rfl
  | cons sch rest ih =>
    simp [schLoop, ih, concatMap, specSchemaBlock, specMatch,
      tableMatches_spec, List.append_assoc]

lemma catLoop_pure (m : PureMeta) (q : List Char) (cats : List UCObj) :
    catLoop (PureMeta.toEnv m) (pyLower q) cats
      = .ok (concatMap
          (fun c => concatMap (specSchemaBlock m q c.name) (m.schemas c.name)) cats) := by
  induction cats with
  | nil => rfl
  | cons cat rest ih =>
    simp [catLoop, schLoop_pure, ih, concatMap]

lemma search_pure_spec (m : PureMeta) (q : List Char) (h : _is_sql q = false) :
    search (PureMeta.toEnv m) q = specSearchOrder m q := by
  simp [search, h, searchMeta, catLoop_pure, specSearchOrder, catalogMatches_spec]

/--
C8: on a metadata service that raises no exception, for every query that is
not classified as SQL, `search` returns exactly the spec's ordering: all
matching catalogs first (in catalog-listing order), then, per catalog in that
same order, each matching schema followed immediately by that schema's
matching tables, where matching is case-insensitive substring match of the
query against the object's fully-qualified name.
-/
theorem c8_metadata_search_order (m : PureMeta) (q : List Char) (h : _is_sql q = false) :
    search (PureMeta.toEnv m) q = specSearchOrder m q :=
  search_pure_spec m q h

/-- A small two-catalog metadata service. -/
def sampleMeta : PureMeta :=
  ⟨[⟨chars "sales", some (chars "sales data")⟩, ⟨chars "hr", none⟩],
    fun n => if n = chars "sales" then [⟨chars "public", none⟩] else [⟨chars "people", none⟩],
    fun _ _ => [⟨chars "orders", none⟩]⟩

theorem c8_witness :
    _is_sql (chars "public") = false
    ∧ search (PureMeta.toEnv sampleMeta) (chars "public")
        = specSearchOrder sampleMeta (chars "public") :=
  ⟨by decide, c8_metadata_search_order sampleMeta (chars "public") (by decide)⟩

/-! ## Empty query (claim C10) -/

lemma pyIn_nil (hay : List Char) : pyIn [] hay = true := by
  induction hay with
  | nil => rfl
  | cons c rest ih => simp [pyIn, ih]

lemma specMatch_nil (name : List Char) : specMatch [] name = true := by
  simp [specMatch, pyLower, pyIn_nil]

/-- Every object the metadata service enumerates, as search results: each
catalog, then per catalog each schema followed by all of its tables. -/
def allObjects (m : PureMeta) : List SearchResult :=
  m.catalogs.map catalogResult
  ++ concatMap (fun c => concatMap (fun sch =>
        schemaResult (c.name ++ '.' :: sch.name) sch
          :: (m.tables c.name sch.name).map
              (fun tb => tableResult ((c.name ++ '.' :: sch.name) ++ '.' :: tb.name) tb))
      (m.schemas c.name)) m.catalogs

/--
C10: the empty query is never classified as SQL, and on the metadata path it
matches every catalog, schema and table the metadata service enumerates (the
empty string is a substring of every fully-qualified name), so `search ""`
returns one result per enumerated object, in enumeration order.
-/
theorem c10_empty_query_lists_everything (m : PureMeta) :
    _is_sql [] = false ∧ search (PureMeta.toEnv m) [] = allObjects m := by
  refine ⟨by decide, ?_⟩
  rw [search_pure_spec m [] (by decide)]
  unfold specSearchOrder allObjects
  refine congrArg₂ (· ++ ·) (by simp [specMatch_nil]) ?_
  refine concatMap_congr _ _ _ fun c _ => ?_
  refine concatMap_congr _ _ _ fun sch _ => ?_
  simp [specSchemaBlock, specMatch_nil, List.filter_true]


/-! ## Malformed identifiers (claim C3) -/

lemma sqlFailed_ne_badId (msg : List Char) :
    FetchResult.err (chars "SQL execution failed: " ++ msg)
      ≠ FetchResult.err (chars "Bad ID format") := by
  intro h
  injection h with h2
  have h3 : ('S' :: (chars "QL execution failed: " ++ msg)) = 'B' :: chars "ad ID format" := h2
  injection h3 with h4 _
  exact absurd h4 (by decide)

lemma notFound_ne_badId (rid : List Char) :
    FetchResult.err (notFoundMsg rid) ≠ FetchResult.err (chars "Bad ID format") := by
  intro h
  injection h with h2
  have h3 : ('R' :: ((chars "esource '" ++ rid) ++ chars "' not found"))
      = 'B' :: chars "ad ID format" := h2
  injection h3 with h4 _
  exact absurd h4 (by decide)

lemma unpack2_ne_badId :
    FetchResult.err (chars "not enough values to unpack (expected 2, got 1)")
      ≠ FetchResult.err (chars "Bad ID format") := by decide

lemma unpack31_ne_badId :
    FetchResult.err (chars "not enough values to unpack (expected 3, got 1)")
      ≠ FetchResult.err (chars "Bad ID format") := by decide

lemma unpack32_ne_badId :
    FetchResult.err (chars "not enough values to unpack (expected 3, got 2)")
      ≠ FetchResult.err (chars "Bad ID format") := by decide

lemma fetchMeta_pure_ne_badId (m : PureMeta) (rid kind name : List Char) :
    fetchMeta (PureMeta.toEnv m) rid kind name ≠ .err (chars "Bad ID format") := by
  unfold fetchMeta
  by_cases h1 : kind = chars "catalog"
  · simp only [h1, if_true, toEnv_catalogs]
    cases hf : m.catalogs.find? fun c => c.name == name with
    | some c => simp [hf]
    | none => simp only [hf]; exact notFound_ne_badId rid
  · simp only [if_neg h1]
    by_cases h2 : kind = chars "schema"
    · simp only [h2, if_true]
      cases hsp : splitFirstOn '.' name with
      | none => simp only [hsp]; exact unpack2_ne_badId
      | some cs =>
        obtain ⟨cat, sch⟩ := cs
        simp only [hsp, toEnv_schemas]
        cases hf : (m.schemas cat).find? fun s => s.name == sch with
        | some sc => simp [hf]
        | none => simp only [hf]; exact notFound_ne_badId rid
    · simp only [if_neg h2]
      by_cases h3 : kind = chars "table"
      · simp only [h3, if_true]
        cases hsp : splitDotTwo name with
        | one a => simp only [hsp]; exact unpack31_ne_badId
        | two a b => simp only [hsp]; exact unpack32_ne_badId
        | three cat sch tbl =>
          simp only [hsp, toEnv_tables]
          cases hf : (m.tables cat sch).find? fun tb => tb.name == tbl with
          | some tb => simp [hf]
          | none => simp only [hf]; exact notFound_ne_badId rid
      · simp only [if_neg h3]
        exact notFound_ne_badId rid

lemma fetch_query_ne_badId (env : Env) (t : List Char) :
    fetch env (chars "query::" ++ t) ≠ .err (chars "Bad ID format") := by
  intro h
  simp only [fetch, isPrefixOf_append_self, extractQuerySql_append, if_true] at h
  cases hr : _run_sql env.sql t 15 with
  | error e =>
    simp only [hr] at h
    exact sqlFailed_ne_badId (PyExc.str e) h
  | ok res =>
    simp only [hr] at h
    cases hman : res.manifest with
    | none =>
      simp only [hman] at h
      exact sqlFailed_ne_badId _ h
    | some man =>
      simp only [hman] at h
      cases htot : man.total_row_count with
      | none =>
        simp only [htot] at h
        exact sqlFailed_ne_badId _ h
      | some n =>
        simp only [htot] at h
        exact FetchResult.noConfusion h

/--
C3, amended: on a metadata service that raises no exception, `fetch` returns
`{"error": "Bad ID format"}` exactly when the id contains no `"::"` separator
at all.  Contrary to the claim, other malformed shapes do not produce this
error: an unknown kind tag falls through to the `"Resource … not found"`
error, a schema payload without a dot surfaces the Python unpacking error
message, and a table payload of four or more dot-separated parts is looked up
with the dotted remainder as the table name (yielding a not-found or success,
never `"Bad ID format"`).
-/
theorem c3_amended_bad_id_iff_no_separator (m : PureMeta) (se : SqlEnv) (rid : List Char) :
    fetch ⟨PureMeta.toEnv m, se⟩ rid = .err (chars "Bad ID format")
      ↔ splitOnColons rid = none := by
  constructor
  · intro h
    by_cases hq : ((chars "query::").isPrefixOf rid) = true
    · exfalso
      obtain ⟨t, ht⟩ := exists_append_of_isPrefixOf _ _ hq
      rw [ht] at h
      exact fetch_query_ne_badId _ t h
    · rw [Bool.not_eq_true] at hq
      simp only [fetch, hq, Bool.false_eq_true, if_false] at h
      cases hsp : splitOnColons rid with
      | none => rfl
      | some kn =>
        exfalso
        obtain ⟨kind, name⟩ := kn
        rw [hsp] at h
        exact fetchMeta_pure_ne_badId m rid kind name h
  · intro h
    have hq : ((chars "query::").isPrefixOf rid) = false := by
      cases hqb : (chars "query::").isPrefixOf rid
      · rfl
      · exfalso
        obtain ⟨t, ht⟩ := exists_append_of_isPrefixOf _ _ hqb
        rw [ht, splitOnColons_query] at h
        exact Option.noConfusion h
    simp [fetch, hq, h]

theorem c3_counterexample :
    fetch failedEnv (chars "foo::bar") = .err (notFoundMsg (chars "foo::bar"))
    ∧ fetch failedEnv (chars "foo::bar") ≠ .err (chars "Bad ID format")
    ∧ fetch failedEnv (chars "schema::nodot")
        = .err (chars "not enough values to unpack (expected 2, got 1)")
    ∧ fetch failedEnv (chars "schema::nodot") ≠ .err (chars "Bad ID format")
    ∧ fetch failedEnv (chars "garbage") = .err (chars "Bad ID format") := by
  refine ⟨by decide, by decide, by decide, by decide, by decide⟩

end DBX
